import Mathlib

/-!
Verification development for the PULSE conversation progression and scoring
engine (`src/orchestrator/chat/__init__.py`): a shallow embedding of the
stage detector, misstep detector, trust accumulator, outcome classifier and
scorecard generator, together with proofs about them.

Python regular-expression patterns (as used via `re.search` on lower-cased
messages) are embedded as an explicit regex datatype covering exactly the
constructs the pattern tables of the source use: literal characters,
concatenation, alternation groups, optional groups (`?`), the any-character
class `.` (which in the default mode of Python does not match a newline) and the
`.*` repetition.  `re.search` semantics — "some position of the string
starts a match" — is modelled by trying a prefix match at every suffix.
-/

set_option maxRecDepth 8000

namespace PulseApp

/-- Regex abstract syntax: exactly the constructs used by the source
pattern tables. -/
inductive Regex where
  | eps : Regex
  | char : Char → Regex
  | dot : Regex
  | dotstar : Regex
  | alt : Regex → Regex → Regex
  | cat : Regex → Regex → Regex
deriving Repr, DecidableEq

/-- Continuation helper for `.*`: try the continuation after skipping any
number of leading non-newline characters. -/
def tryTails (k : List Char → Bool) : List Char → Bool
  | [] => k []
  | c :: rest => k (c :: rest) || ((c != '\n') && tryTails k rest)

/-- Backtracking matcher in continuation-passing style: `rmatch r s k` holds
when some prefix of `s` matches `r` and `k` accepts the corresponding
suffix. -/
def rmatch : Regex → List Char → (List Char → Bool) → Bool
  | .eps, s, k => k s
  | .char _, [], _ => false
  | .char c, d :: s, k => (c == d) && k s
  | .dot, [], _ => false
  | .dot, d :: s, k => (d != '\n') && k s
  | .dotstar, s, k => tryTails k s
  | .alt r₁ r₂, s, k => rmatch r₁ s k || rmatch r₂ s k
  | .cat r₁ r₂, s, k => rmatch r₁ s (fun t => rmatch r₂ t k)

/-- Search semantics of `re.search`: a match of `r` may start at any position. -/
def search (r : Regex) : List Char → Bool
  | [] => rmatch r [] (fun _ => true)
  | c :: rest => rmatch r (c :: rest) (fun _ => true) || search r rest

/-- Model of `str.lower()` on the character list (messages in the source are ASCII;
Python lower-cases before every pattern check). -/
def lower (s : List Char) : List Char := s.map Char.toLower

/-- Literal string as a regex (concatenation of its characters). -/
def rstr (s : String) : Regex :=
  s.data.foldr (fun c r => Regex.cat (Regex.char c) r) Regex.eps

/-- Alternation group `(a|b|…)`. -/
def ralt : List Regex → Regex
  | [] => Regex.eps
  | [r] => r
  | r :: rs => Regex.alt r (ralt rs)

/-- Sequence of regex fragments. -/
def rcat : List Regex → Regex
  | [] => Regex.eps
  | [r] => r
  | r :: rs => Regex.cat r (rcat rs)

/-- Optional group `(…)?`. -/
def ropt (r : Regex) : Regex := Regex.alt r Regex.eps

/-- One entry of the `stage_patterns` table inside
`_analyze_pulse_stage_quick`. -/
structure StageInfo where
  name : String
  patterns : List Regex
  behavior : String
  requiresQuestion : Bool
deriving Repr, DecidableEq

/-- Entry `stage_patterns[1]` (Probe — discovery questions). -/
def probeInfo : StageInfo :=
  { name := "Probe"
    patterns :=
      [ rcat [ rstr "what ", ralt [ rstr "brings", rstr "brought"], rstr " you"]
      , rcat [ ralt [ rstr "tell", rstr "talk"], rstr " me ", ralt [ rstr "about", rstr "more"]]
      , rcat [ rstr "how ", ralt [ rstr "do", rstr "does", rstr "can", rstr "would"]]
      , rcat [ rstr "what ", ralt [ rstr "are", rstr "is"], rstr " ", ralt [ rstr "your", rstr "the"]]
      , rcat [ ralt [ rstr "could", rstr "can", rstr "would"], rstr " you ", ralt [ rstr "tell", rstr "describe", rstr "explain"]]
      , rcat [ rstr "what", Regex.dotstar, Regex.char '?']
      , rcat [ rstr "how", Regex.dotstar, Regex.char '?']
      , rcat [ rstr "why", Regex.dotstar, Regex.char '?'] ]
    behavior := "asks discovery questions"
    requiresQuestion := true }

/-- Entry `stage_patterns[2]` (Understand — reflection/paraphrasing). -/
def understandInfo : StageInfo :=
  { name := "Understand"
    patterns :=
      [ rcat [ rstr "so ", ralt [ rstr "you\x27re", rstr "you are", rstr "you"], rstr " ", ralt [ rstr "saying", rstr "looking", rstr "wanting", rstr "need"]]
      , rcat [ ropt (rstr "it "), rstr "sounds like"]
      , rcat [ ropt (rstr "i "), rstr "hear ", ralt [ rstr "that", rstr "you"]]
      , rcat [ ropt (ralt [ rstr "let me ", rstr "to "]), rstr "make sure i ", ralt [ rstr "understand", rstr "got", rstr "have"]]
      , ralt [ rstr "you mentioned", rstr "you said", rstr "you told me"]
      , rcat [ rstr "if i ", ralt [ rstr "understand", rstr "heard"], rstr " ", ropt (rstr "you "), ralt [ rstr "correctly", rstr "right"]]
      , rcat [ rstr "what i", ralt [ rstr "\x27m", rstr " am"], rstr " hearing is"] ]
    behavior := "demonstrates active listening"
    requiresQuestion := false }

/-- Entry `stage_patterns[3]` (Link — connecting features to needs). -/
def linkInfo : StageInfo :=
  { name := "Link"
    patterns :=
      [ rcat [ ralt [ rstr "since", rstr "because"], rstr " you ", ralt [ rstr "said", rstr "mentioned", rstr "told", rstr "need"]]
      , rcat [ rstr "based on what you ", ralt [ rstr "said", rstr "mentioned", rstr "told", rstr "shared"]]
      , rcat [ rstr "that\x27s ", ralt [ rstr "why", rstr "exactly why"]]
      , rcat [ ralt [ rstr "this", rstr "that", rstr "our", rstr "the"], rstr " ", Regex.dotstar, ralt [ rstr "will", rstr "can", rcat [ rstr "help", ropt (Regex.char 's')], rstr "addresses", rstr "solves"]]
      , rcat [ rstr "for ", ralt [ rstr "your", rstr "someone with your", rstr "people who"]]
      , rcat [ rstr "given ", ralt [ rstr "what you", rstr "your"]] ]
    behavior := "connects feature to customer need"
    requiresQuestion := false }

/-- Entry `stage_patterns[4]` (Simplify — focused recommendations). -/
def simplifyInfo : StageInfo :=
  { name := "Simplify"
    patterns :=
      [ rcat [ rstr "i", ralt [ rstr "\x27d", rstr " would"], rstr " recommend"]
      , rcat [ rstr "my recommendation ", ralt [ rstr "is", rstr "would be"]]
      , rcat [ rstr "the best ", ralt [ rstr "option", rstr "choice", rstr "fit", rstr "solution"], rstr " ", ralt [ rstr "for you", rstr "would be"]]
      , ralt [ rstr "compared to", rstr "the difference between"]
      , ralt [ rstr "simpler", rstr "easier", rstr "straightforward", rstr "simple"]
      , rcat [ ralt [ rstr "one", rstr "single", rstr "specific"], rstr " ", ralt [ rstr "option", rstr "recommendation", rstr "solution"]]
      , rcat [ rstr "to ", ralt [ rstr "simplify", rstr "make it easy", rstr "keep it simple"]] ]
    behavior := "presents focused recommendation"
    requiresQuestion := false }

/-- Entry `stage_patterns[5]` (Earn — asking for commitment). -/
def earnInfo : StageInfo :=
  { name := "Earn"
    patterns :=
      [ rstr "would you like to"
      , rcat [ rstr "shall we ", ralt [ rstr "proceed", rstr "move forward", rstr "get started", rstr "schedule"]]
      , rcat [ ropt (rstr "are you "), rstr "ready to"]
      , rcat [ rstr "let\x27s ", ralt [ rstr "schedule", rstr "set up", rstr "get started", rstr "proceed", rstr "do this"]]
      , rcat [ rstr "can i ", ralt [ rstr "set", rstr "schedule", rstr "book", rstr "get"], rstr " ", ralt [ rstr "that", rstr "this", rstr "you"]]
      , rcat [ rstr "does that ", ralt [ rstr "work", rstr "sound good"], rstr " for you"]
      , rcat [ ralt [ rstr "want", rstr "like"], rstr " to ", ralt [ rstr "try", rstr "test", rstr "demo", rstr "see"]]
      , rcat [ rstr "what do you ", ralt [ rstr "think", rstr "say"], Regex.char '?'] ]
    behavior := "asks for commitment/next step"
    requiresQuestion := false }

/-- The `stage_patterns` dict of `_analyze_pulse_stage_quick`
(`dict.get` semantics: `none` for keys outside 1..5). -/
def stagePatterns : Int → Option StageInfo
  | 1 => some probeInfo
  | 2 => some understandInfo
  | 3 => some linkInfo
  | 4 => some simplifyInfo
  | 5 => some earnInfo
  | _ => none

/-- Model of `_analyze_pulse_stage_quick(trainee_messages, current_stage)`:
examines only the latest trainee message (lower-cased); at stage ≥ 5 it
returns `(5, [])`; otherwise it checks the pattern list of the NEXT stage,
subject to the question-mark requirement of that pattern set, and advances by
exactly one stage on a match. -/
def analyzePulseStageQuick (traineeMessages : List String) (currentStage : Int) :
    Int × List String :=
  match traineeMessages.getLast? with
  | none => (currentStage, [])
  | some lastMsg =>
    let latestMessage := lower lastMsg.data
    let nextStage := currentStage + 1
    if currentStage ≥ 5 then (5, [])
    else
      match stagePatterns nextStage with
      | none => (currentStage, [])
      | some info =>
        if info.requiresQuestion && !(latestMessage.contains '?') then
          (currentStage, [])
        else if info.patterns.any (fun p => search p latestMessage) then
          (nextStage, [info.behavior])
        else (currentStage, [])

/-- One entry of the `CRITICAL_MISSTEPS` table.  `min_stage` / `max_stage`
are optional keys in the source, read with `dict.get` defaults 1 and 5. -/
structure MisstepDef where
  patterns : List Regex
  minStageOpt : Option Int
  maxStageOpt : Option Int
  trustPenalty : Int
  responseHint : String
deriving Repr, DecidableEq

/-- A detected misstep record `{id, penalty, hint}` as appended by
`_detect_missteps`. -/
structure MisstepRecord where
  id : String
  penalty : Int
  hint : String
deriving Repr, DecidableEq

/-- The `CRITICAL_MISSTEPS` module-level table, in dict insertion order. -/
def CRITICAL_MISSTEPS : List (String × MisstepDef) :=
  [ ("pushy_early_close",
     { patterns :=
         [ rcat [ ralt [ rstr "buy", rstr "purchase", rstr "order", rstr "sign up"], rstr " ", ralt [ rstr "now", rstr "today", rstr "right now"]]
         , rcat [ ralt [ rstr "ready to", rstr "want to"], rstr " ", ralt [ rstr "buy", rstr "purchase", rstr "order"]]
         , rcat [ rstr "let\x27s ", ralt [ rstr "close", rstr "finalize", rstr "complete"], rstr " ", ralt [ rstr "this", rstr "the deal"]] ]
       minStageOpt := none
       maxStageOpt := some 3
       trustPenalty := -3
       responseHint := "I\x27m not ready to make a decision yet. I still have questions." })
  , ("pressure_tactics",
     { patterns :=
         [ ralt [ rstr "limited time", rstr "act now", rstr "don\x27t wait", rstr "hurry"]
         , rcat [ ralt [ rstr "you need to", rstr "you have to", rstr "you must"], rstr " decide"]
         , rcat [ ralt [ rstr "everyone", rstr "most people"], rstr " ", ralt [ rstr "buys", rstr "chooses", rstr "gets"]]
         , rcat [ rstr "you", ralt [ rstr "\x27ll", rstr " will"], rstr " regret"] ]
       minStageOpt := none
       maxStageOpt := some 5
       trustPenalty := -3
       responseHint := "I don\x27t appreciate being pressured. I need to think about this." })
  , ("ignoring_needs",
     { patterns :=
         [ ralt [ rstr "our best", rstr "most popular", rstr "top selling"]
         , rcat [ ralt [ rstr "you should", rstr "you need"], rstr " ", ralt [ rstr "the", rstr "our", rstr "this"]] ]
       minStageOpt := some 1
       maxStageOpt := some 2
       trustPenalty := -2
       responseHint := "That\x27s not really what I\x27m looking for. Did you hear what I said?" }) ]

/-- Model of `_detect_missteps(message, current_stage)`: for each misstep definition
whose stage range contains `current_stage`, append one record if any of its
patterns matches the lower-cased message (the source `break`s after the
first matching pattern, so at most one record per definition). -/
def detectMissteps (message : String) (currentStage : Int) : List MisstepRecord :=
  let messageLower := lower message.data
  CRITICAL_MISSTEPS.filterMap (fun mi =>
    let minStage := mi.2.minStageOpt.getD 1
    let maxStage := mi.2.maxStageOpt.getD 5
    if currentStage < minStage ∨ currentStage > maxStage then none
    else if mi.2.patterns.any (fun p => search p messageLower) then
      some ⟨mi.1, mi.2.trustPenalty, mi.2.responseHint⟩
    else none)

/-- Does the haystack start with the needle? -/
def listStartsWith : List Char → List Char → Bool
  | [], _ => true
  | _ :: _, [] => false
  | c :: cs, d :: ds => (c == d) && listStartsWith cs ds

/-- The substring test of Python, `needle in hay`. -/
def listHasSub (needle : List Char) : List Char → Bool
  | [] => listStartsWith needle []
  | d :: ds => listStartsWith needle (d :: ds) || listHasSub needle ds

/-- Reward for one detected behavior label in `_calculate_trust_change`
(the `elif` chain of rewarded substrings over the lower-cased label). -/
def behaviorReward (behavior : String) : Int :=
  let bl := lower behavior.data
  if listHasSub ("discovery question".data) bl then 1
  else if listHasSub ("active listening".data) bl then 1
  else if listHasSub ("connects feature".data) bl then 1
  else if listHasSub ("focused recommendation".data) bl then 1
  else if listHasSub ("commitment".data) bl then 1
  else 0

/-- Model of `_calculate_trust_change(current_stage, new_stage, detected_behaviors,
missteps)`: +1 for a stage advancement, the behavior rewards, and the sum of
the (already negative) misstep penalties. -/
def calculateTrustChange (currentStage newStage : Int) (detectedBehaviors : List String)
    (missteps : List MisstepRecord) : Int :=
  (if newStage > currentStage then 1 else 0)
    + (detectedBehaviors.map behaviorReward).sum
    + (missteps.map (fun m => m.penalty)).sum

/-- Constant `TRUST_WIN_THRESHOLD`: trust ≥ 7 at stage 5 wins the sale. -/
def TRUST_WIN_THRESHOLD : Int := 7

/-- Constant `TRUST_LOSS_THRESHOLD`: trust ≤ 2 loses the sale. -/
def TRUST_LOSS_THRESHOLD : Int := 2

/-- Constant `INITIAL_TRUST`: the starting trust score. -/
def INITIAL_TRUST : Int := 5

/-- Model of `_determine_sale_outcome(trust_score, current_stage, missteps)`:
rule priority is loss, then win, then stalled, then in-progress.  The
`missteps` argument is accepted but unused, exactly as in the source. -/
def determineSaleOutcome (trustScore currentStage : Int)
    (missteps : List MisstepRecord) : String :=
  if trustScore ≤ TRUST_LOSS_THRESHOLD then "lost"
  else if currentStage ≥ 5 ∧ trustScore ≥ TRUST_WIN_THRESHOLD then "won"
  else if currentStage ≥ 5 ∧ trustScore < TRUST_WIN_THRESHOLD then "stalled"
  else "in_progress"

/-- The per-turn clamp of the caller (`main`, line 667):
`trust_score = max(0, min(10, trust_score + trust_change))`. -/
def clampTrust (t : Int) : Int := max 0 (min 10 t)

/-- Trust after applying a sequence of per-turn deltas with the caller
clamp, starting from `INITIAL_TRUST`. -/
def applyTrustDeltas (deltas : List Int) : Int :=
  deltas.foldl (fun t d => clampTrust (t + d)) INITIAL_TRUST

/-- One entry of the module-level `PULSE_STAGES` dict. -/
structure PulseStage where
  name : String
  description : String
  indicators : List String
deriving Repr, DecidableEq

/-- The `PULSE_STAGES` dict; subscripting a key outside 1..5 raises
`KeyError` in Python, modelled by `none`. -/
def pulseStages : Int → Option PulseStage
  | 1 => some { name := "Probe"
                description := "Ask open-ended questions to understand customer needs"
                indicators := ["asks discovery questions", "explores customer situation", "avoids immediate product pitch"] }
  | 2 => some { name := "Understand"
                description := "Reflect back and confirm understanding of customer needs"
                indicators := ["paraphrases customer needs", "uses reflection phrases", "acknowledges emotions", "confirms understanding"] }
  | 3 => some { name := "Link"
                description := "Connect product features to stated customer needs"
                indicators := ["references customer\x27s stated needs", "explains how feature addresses need", "uses customer\x27s language"] }
  | 4 => some { name := "Simplify"
                description := "Narrow options and explain trade-offs clearly"
                indicators := ["presents focused recommendation", "reduces complexity", "explains trade-offs simply"] }
  | 5 => some { name := "Earn"
                description := "Make clear recommendation and ask for commitment"
                indicators := ["asks for next step", "proposes specific action", "requests commitment or decision"] }
  | _ => none

/-- The Python builtin `round()` on an exact rational: round half to even.  The
fractional part `q - ⌊q⌋` is compared with `1/2` through the equivalent
cross-multiplied conditions `2q ≶ 2⌊q⌋ + 1`. -/
def pyRound (q : ℚ) : Int :=
  if 2 * q < 2 * (⌊q⌋ : ℚ) + 1 then ⌊q⌋
  else if 2 * (⌊q⌋ : ℚ) + 1 < 2 * q then ⌊q⌋ + 1
  else if ⌊q⌋ % 2 = 0 then ⌊q⌋ else ⌊q⌋ + 1

/-- The Python builtin `round(x, 2)` on an exact rational. -/
def roundTo2 (q : ℚ) : ℚ := (pyRound (q * 100) : ℚ) / 100

/-- One sub-score block (`bce` / `mcf` / `cpo`) of the scorecard. -/
structure ScoreSection where
  score : ℚ
  passed : Bool
  summary : String
deriving Repr, DecidableEq

/-- The `overall` block of the scorecard. -/
structure OverallSection where
  score : Int
  rawScore : ℚ
  passed : Bool
deriving Repr, DecidableEq

/-- The `pulse_details` block of the scorecard. -/
structure PulseDetails where
  finalStage : Int
  stageName : String
  trustScore : Int
  saleOutcome : String
  missteps : List String
  totalExchanges : Nat
deriving Repr, DecidableEq

/-- One conversation-history entry `{role, content}`. -/
structure ChatMsg where
  role : String
  content : String
deriving Repr, DecidableEq

/-- The scorecard dict produced by `_generate_scorecard`. -/
structure Scorecard where
  overall : OverallSection
  bce : ScoreSection
  mcf : ScoreSection
  cpo : ScoreSection
  pulseDetails : PulseDetails
deriving Repr, DecidableEq

/-- Model of `m.get("id", "unknown").replace("_", " ")` on a misstep record. -/
def misstepName (m : MisstepRecord) : String :=
  ⟨m.id.data.map (fun c => if c == '_' then ' ' else c)⟩

/-- Model of `_generate_scorecard(session_id, pulse_stage, trust_score, sale_outcome,
missteps, conversation_history)`.  The source subscripts
`PULSE_STAGES[pulse_stage]` (twice), which raises `KeyError` when
`pulse_stage` is outside 1..5; that failure is modelled by `none`. -/
def generateScorecard (sessionId : String) (pulseStage : Int) (trustScore : Int)
    (saleOutcome : String) (missteps : List MisstepRecord)
    (conversationHistory : List ChatMsg) : Option Scorecard :=
  match pulseStages pulseStage with
  | none => none
  | some stageEntry =>
    let bceScore : ℚ := ((pulseStage : ℚ) - 1) * (75 / 100)
    let bcePassed : Bool := pulseStage ≥ 4
    let bceSummary : String :=
      "Reached PULSE stage " ++ toString pulseStage ++ " (" ++ stageEntry.name ++ ")"
        ++ (if pulseStage < 3 then
              ". Need to progress further through discovery and understanding."
            else if pulseStage < 5 then
              ". Good progress, but didn\x27t complete the full PULSE cycle."
            else ". Excellent! Completed all PULSE stages.")
    let mcfBase : ℚ :=
      if trustScore ≤ 3 then 0
      else if trustScore ≤ 5 then 1
      else if trustScore ≤ 7 then 2
      else 3
    let misstepPenalty : ℚ := min ((missteps.length : ℚ) * (5 / 10)) (15 / 10)
    let mcfScore : ℚ := max 0 (mcfBase - misstepPenalty)
    let mcfPassed : Bool := mcfScore ≥ 2
    let misstepNames : List String := missteps.map misstepName
    let mcfSummary : String :=
      if missteps.isEmpty then
        "Trust score: " ++ toString trustScore ++ "/10. No missteps detected."
      else
        "Trust score: " ++ toString trustScore ++ "/10. Missteps: "
          ++ String.intercalate ", " misstepNames ++ "."
    let cpo : ℚ × Bool × String :=
      if saleOutcome = "won" then (3, true, "Successfully closed the sale!")
      else if saleOutcome = "stalled" then
        (15 / 10, false, "Customer hesitated. Sale not completed but not lost.")
      else if saleOutcome = "lost" then
        (0, false, "Customer walked away. Review approach and try again.")
      else (1, false, "Session ended before reaching a conclusion.")
    let cpoScore := cpo.1
    let cpoPassed := cpo.2.1
    let cpoSummary := cpo.2.2
    let overallRaw : ℚ := (bceScore + mcfScore + cpoScore) / 3
    let overallPct : Int := pyRound ((overallRaw / 3) * 100)
    some
      { overall := { score := overallPct, rawScore := roundTo2 overallRaw,
                     passed := overallPct ≥ 70 }
        bce := { score := roundTo2 bceScore, passed := bcePassed, summary := bceSummary }
        mcf := { score := roundTo2 mcfScore, passed := mcfPassed, summary := mcfSummary }
        cpo := { score := roundTo2 cpoScore, passed := cpoPassed, summary := cpoSummary }
        pulseDetails :=
          { finalStage := pulseStage
            stageName := stageEntry.name
            trustScore := trustScore
            saleOutcome := saleOutcome
            missteps := misstepNames
            totalExchanges := (conversationHistory.filter (fun m => m.role = "user")).length } }

/-! ## Structure lemmas -/

/-- Every call to the stage detector either keeps the current stage with no
behaviors, advances exactly one stage emitting the single
behavior label, or (at stage ≥ 5) returns the stage-5 ceiling. -/
theorem analyzeQuick_cases (msgs : List String) (s : Int) :
    analyzePulseStageQuick msgs s = (s, []) ∨
    (s < 5 ∧ ∃ info, stagePatterns (s + 1) = some info ∧
      analyzePulseStageQuick msgs s = (s + 1, [info.behavior])) ∨
    (5 ≤ s ∧ analyzePulseStageQuick msgs s = (5, [])) := by
  cases h : msgs.getLast? with
  | none => left; simp [analyzePulseStageQuick, h]
  | some lastMsg =>
    by_cases h5 : s ≥ 5
    · right; right
      exact ⟨h5, by simp [analyzePulseStageQuick, h, h5]⟩
    · cases hp : stagePatterns (s + 1) with
      | none => left; simp [analyzePulseStageQuick, h, h5, hp]
      | some info =>
        cases hm : info.patterns.any (fun p => search p (lower lastMsg.data)) with
        | false =>
          left
          cases hrq : info.requiresQuestion with
          | false =>
            simp [analyzePulseStageQuick, h, h5, hp, hm, hrq]
          | true =>
            by_cases hc : '?' ∈ lower lastMsg.data
            · simp [analyzePulseStageQuick, h, h5, hp, hm, hrq, hc]
            · simp [analyzePulseStageQuick, h, h5, hp, hrq, hc]
        | true =>
          cases hrq : info.requiresQuestion with
          | false =>
            right; left
            refine ⟨by omega, info, rfl, ?_⟩
            simp [analyzePulseStageQuick, h, h5, hp, hm, hrq]
          | true =>
            by_cases hc : '?' ∈ lower lastMsg.data
            · right; left
              refine ⟨by omega, info, rfl, ?_⟩
              simp [analyzePulseStageQuick, h, h5, hp, hm, hrq, hc]
            · left
              simp [analyzePulseStageQuick, h, h5, hp, hrq, hc]

/-- Bounds are preserved by folding clamped trust updates. -/
theorem clampTrust_foldl_bounds (deltas : List Int) (t : Int)
    (h1 : 0 ≤ t) (h2 : t ≤ 10) :
    0 ≤ deltas.foldl (fun a d => clampTrust (a + d)) t ∧
      deltas.foldl (fun a d => clampTrust (a + d)) t ≤ 10 := by
  induction deltas generalizing t with
  | nil => exact ⟨h1, h2⟩
  | cons d ds ih =>
    simp only [List.foldl_cons]
    exact ih (clampTrust (t + d)) (le_max_left 0 _)
      (max_le (by norm_num) (min_le_left 10 _))

/-! ## Claim theorems -/

/-- C1 counterexample: at `current_stage = 1` the code checks the
stage-2 (Understand) pattern list, so `["What brings you in today?"]` does
NOT advance and does not return `(2, {"asks discovery questions"})`, while a
reflection message without any question mark DOES advance to stage 2. -/
theorem c1_counterexample :
    analyzePulseStageQuick ["What brings you in today?"] 1 ≠
        (2, ["asks discovery questions"]) ∧
    analyzePulseStageQuick ["What brings you in today?"] 1 = (1, []) ∧
    analyzePulseStageQuick ["sounds like you need a bigger plan"] 1 =
        (2, ["demonstrates active listening"]) ∧
    ("sounds like you need a bigger plan".data.contains '?') = false := by
  refine ⟨by decide, by decide, by decide, by decide⟩

/-- C1 (amended): for `current_stage = 1` and a non-empty message list, the
Stage Detector checks the stage-2 ("Understand") pattern set, which carries
no question-mark requirement: the call advances to stage 2 with behavior
set `{"demonstrates active listening"}` exactly when the last lower-cased
message matches one of the Understand patterns, and otherwise returns
`(1, {})`; a question mark is neither needed nor sufficient. -/
theorem c1_amended (msgs : List String) (lastMsg : String)
    (h : msgs.getLast? = some lastMsg) :
    stagePatterns 2 = some understandInfo ∧
    understandInfo.requiresQuestion = false ∧
    analyzePulseStageQuick msgs 1 =
      (if understandInfo.patterns.any (fun p => search p (lower lastMsg.data))
       then (2, [understandInfo.behavior]) else (1, [])) := by
  refine ⟨rfl, rfl, ?_⟩
  by_cases hm : understandInfo.patterns.any (fun p => search p (lower lastMsg.data)) <;>
    simp [analyzePulseStageQuick, h, stagePatterns, hm, understandInfo]

/-- Witness for C1 (amended) at a concrete reflective message. -/
theorem c1_amended_witness :
    stagePatterns 2 = some understandInfo ∧
    understandInfo.requiresQuestion = false ∧
    analyzePulseStageQuick ["sounds like you need a bigger plan"] 1 =
      (if understandInfo.patterns.any
          (fun p => search p (lower "sounds like you need a bigger plan".data))
       then (2, [understandInfo.behavior]) else (1, [])) :=
  c1_amended ["sounds like you need a bigger plan"]
    "sounds like you need a bigger plan" (by decide)

/-- C4: for every current stage in 1..5 and every message list, the detected
stage never drops below the current stage, never exceeds it by more than 1,
never exceeds 5, and at stage 5 the call returns `(5, {})` regardless of
message content. -/
theorem c4_stage_monotonic (s : Int) (msgs : List String)
    (h1 : 1 ≤ s) (h2 : s ≤ 5) :
    (s ≤ (analyzePulseStageQuick msgs s).1 ∧
      (analyzePulseStageQuick msgs s).1 ≤ s + 1 ∧
      (analyzePulseStageQuick msgs s).1 ≤ 5) ∧
    (s = 5 → analyzePulseStageQuick msgs s = (5, [])) := by
  rcases analyzeQuick_cases msgs s with h | ⟨hlt, info, hp, h⟩ | ⟨hge, h⟩ <;>
    (simp [h]; try omega)

/-- Witness for C4 at stage 3 with a concrete message. -/
theorem c4_stage_monotonic_witness :
    ((3 : Int) ≤ (analyzePulseStageQuick ["hello there"] 3).1 ∧
      (analyzePulseStageQuick ["hello there"] 3).1 ≤ 3 + 1 ∧
      (analyzePulseStageQuick ["hello there"] 3).1 ≤ 5) ∧
    ((3 : Int) = 5 → analyzePulseStageQuick ["hello there"] 3 = (5, [])) :=
  c4_stage_monotonic 3 ["hello there"] (by decide) (by decide)

/-- C5: starting from the initial trust score 5, after any sequence of
per-turn deltas applied with the clamp of the caller
`max(0, min(10, trust + delta))`, the trust score stays within 0..10. -/
theorem c5_trust_bounds (deltas : List Int) :
    0 ≤ applyTrustDeltas deltas ∧ applyTrustDeltas deltas ≤ 10 :=
  clampTrust_foldl_bounds deltas INITIAL_TRUST (by decide) (by decide)

/-- C6: the outcome classifier applies the loss rule first — any trust ≤ 2
yields "lost" regardless of stage and misstep history (in particular at
trust 2, stage 5), while trust 9 at stage 5 yields "won". -/
theorem c6_outcome_priority :
    (∀ (trust stage : Int) (ms : List MisstepRecord),
        trust ≤ 2 → determineSaleOutcome trust stage ms = "lost") ∧
    (∀ ms : List MisstepRecord, determineSaleOutcome 2 5 ms = "lost") ∧
    (∀ ms : List MisstepRecord, determineSaleOutcome 9 5 ms = "won") := by
  refine ⟨?_, fun ms => rfl, fun ms => rfl⟩
  intro trust stage ms h
  simp [determineSaleOutcome, TRUST_LOSS_THRESHOLD, h]

/-- Witness for the C6 loss rule at trust 1, stage 3. -/
theorem c6_outcome_priority_witness :
    determineSaleOutcome 1 3 [] = "lost" :=
  c6_outcome_priority.1 1 3 [] (by decide)

/-- C8: the result of the outcome classifier does not depend on the misstep
history argument (it is accepted but never read). -/
theorem c8_outcome_ignores_missteps (trust stage : Int)
    (h1 h2 : List MisstepRecord) :
    determineSaleOutcome trust stage h1 = determineSaleOutcome trust stage h2 := rfl

/-- C2 counterexample: at final stage 3, trust 3, outcome lost and two
missteps, the overall percentage is 17 — `round(((1.5 + 0 + 0) / 3) / 3 ×
100) = round(16.67)` — not 0 as the claim asserts. -/
theorem c2_counterexample :
    (generateScorecard "session" 3 3 "lost"
        [⟨"pushy_early_close", -3, "hint1"⟩, ⟨"pressure_tactics", -3, "hint2"⟩] []).map
      (fun sc => sc.overall.score) = some 17 ∧ (17 : Int) ≠ 0 := by
  constructor
  · simp only [generateScorecard, pulseStages, Option.map, String.reduceEq]
    norm_num [pyRound, roundTo2]
  · decide

/-- C2 (amended): the Scorecard Generator at final_stage=3, trust_score=3,
outcome=lost with any misstep history of length 2 yields BCE 1.5 (fail),
MCF 0 (fail), CPO 0 (fail), and overall percent 17
(= round(((1.5+0+0)/3)/3 × 100)), overall fail. -/
theorem c2_amended (sid : String) (missteps : List MisstepRecord)
    (history : List ChatMsg) (h : missteps.length = 2) :
    (generateScorecard sid 3 3 "lost" missteps history).map
      (fun sc => (sc.bce.score, sc.bce.passed, sc.mcf.score, sc.mcf.passed,
        sc.cpo.score, sc.cpo.passed, sc.overall.score, sc.overall.passed)) =
    some (3 / 2, false, 0, false, 0, false, 17, false) := by
  simp only [generateScorecard, pulseStages, Option.map, String.reduceEq, h]
  norm_num [pyRound, roundTo2]

/-- Witness for C2 (amended) at a concrete two-misstep history. -/
theorem c2_amended_witness :
    (generateScorecard "session" 3 3 "lost"
        [⟨"pushy_early_close", -3, "hint1"⟩, ⟨"ignoring_needs", -2, "hint2"⟩] []).map
      (fun sc => (sc.bce.score, sc.bce.passed, sc.mcf.score, sc.mcf.passed,
        sc.cpo.score, sc.cpo.passed, sc.overall.score, sc.overall.passed)) =
    some (3 / 2, false, 0, false, 0, false, 17, false) :=
  c2_amended "session"
    [⟨"pushy_early_close", -3, "hint1"⟩, ⟨"ignoring_needs", -2, "hint2"⟩] []
    (by decide)

/-- C3 counterexample: the Scorecard Generator is NOT total in the stage
argument — a stage outside 1..5 hits `PULSE_STAGES[pulse_stage]`, a
`KeyError` (modelled by `none`). -/
theorem c3_counterexample :
    generateScorecard "session" 0 5 "lost" [] [] = none ∧
    generateScorecard "session" 6 5 "won" [] [] = none := by
  constructor <;> simp [generateScorecard, pulseStages]

/-- C3 (amended): every engine function except the Scorecard Generator is
total in all its arguments (in this embedding they are plain functions,
e.g. the Outcome Classifier returns one of the four outcome strings for
every input); the Scorecard Generator is total whenever the final stage is
in 1..5, for every trust value, outcome string, misstep history and
conversation history. -/
theorem c3_amended :
    (∀ (sid : String) (stage trust : Int) (outcome : String)
        (ms : List MisstepRecord) (hist : List ChatMsg),
        1 ≤ stage → stage ≤ 5 →
        (generateScorecard sid stage trust outcome ms hist).isSome = true) ∧
    (∀ (trust stage : Int) (ms : List MisstepRecord),
        determineSaleOutcome trust stage ms = "lost" ∨
        determineSaleOutcome trust stage ms = "won" ∨
        determineSaleOutcome trust stage ms = "stalled" ∨
        determineSaleOutcome trust stage ms = "in_progress") := by
  constructor
  · intro sid stage trust outcome ms hist hlo hhi
    interval_cases stage <;> simp [generateScorecard, pulseStages]
  · intro t s ms
    unfold determineSaleOutcome
    split_ifs <;> simp

/-- Witness for C3 (amended): the Scorecard Generator succeeds at stage 3. -/
theorem c3_amended_witness :
    (generateScorecard "session" 3 4 "won" [] []).isSome = true :=
  c3_amended.1 "session" 3 4 "won" [] [] (by decide) (by decide)

/-- Records with pairwise-distinct ids admit at most one record per id. -/
theorem filter_id_length_le_one {l : List MisstepRecord}
    (h : l.Pairwise (fun a b => a.id ≠ b.id)) (x : String) :
    (l.filter (fun r => r.id = x)).length ≤ 1 := by
  induction l with
  | nil => simp
  | cons a l ih =>
    rcases List.pairwise_cons.mp h with ⟨ha, hl⟩
    by_cases hx : a.id = x
    · have hnil : l.filter (fun r => decide (r.id = x)) = [] := by
        refine List.filter_eq_nil_iff.mpr ?_
        intro b hb
        simp only [decide_eq_true_eq]
        exact fun hbx => (ha b hb) (hx.trans hbx.symm)
      simp [List.filter_cons, hx, hnil]
    · simp [List.filter_cons, hx, ih hl]

/-- Filtering and mapping over a table with pairwise-distinct keys yields records
with pairwise-distinct ids, provided each produced record carries its
table key as id. -/
theorem filterMap_pairwise_id (f : (String × MisstepDef) → Option MisstepRecord)
    (hf : ∀ mi r, f mi = some r → r.id = mi.1)
    (l : List (String × MisstepDef)) (hl : l.Pairwise (fun a b => a.1 ≠ b.1)) :
    (l.filterMap f).Pairwise (fun a b => a.id ≠ b.id) := by
  induction l with
  | nil => simp
  | cons a l ih =>
    rcases List.pairwise_cons.mp hl with ⟨ha, hl2⟩
    rw [List.filterMap_cons]
    cases hfa : f a with
    | none => exact ih hl2
    | some r =>
      refine List.pairwise_cons.mpr ⟨?_, ih hl2⟩
      intro b hb
      rcases List.mem_filterMap.mp hb with ⟨mi, hmi, hfmi⟩
      rw [hf a r hfa, hf mi b hfmi]
      exact ha mi hmi

/-- The misstep detector output has pairwise-distinct misstep ids. -/
theorem detectMissteps_pairwise_id (m : String) (s : Int) :
    (detectMissteps m s).Pairwise (fun a b => a.id ≠ b.id) := by
  unfold detectMissteps
  refine filterMap_pairwise_id _ ?_ _ ?_
  · intro mi r hf
    dsimp only at hf
    split at hf
    · cases hf
    · split at hf
      · cases hf
        rfl
      · cases hf
  · decide

/-- C7: the Misstep Detector returns at most one record per misstep id per
call; every returned record corresponds to a misstep definition whose stage
range `[min_stage, max_stage]` (defaults 1 and 5) contains the current
stage; and the concrete close-the-deal message at stage 2 yields
exactly one record, for pushy_early_close, with penalty −3. -/
theorem c7_misstep_detector (m : String) (s : Int) :
    (∀ x : String, ((detectMissteps m s).filter (fun r => r.id = x)).length ≤ 1) ∧
    (∀ r ∈ detectMissteps m s, ∃ mi, mi ∈ CRITICAL_MISSTEPS ∧ r.id = mi.1 ∧
        mi.2.minStageOpt.getD 1 ≤ s ∧ s ≤ mi.2.maxStageOpt.getD 5) ∧
    detectMissteps "Let\x27s close this deal right now" 2 =
      [{ id := "pushy_early_close", penalty := -3,
         hint := "I\x27m not ready to make a decision yet. I still have questions." }] := by
  refine ⟨fun x => filter_id_length_le_one (detectMissteps_pairwise_id m s) x,
    ?_, by decide⟩
  intro r hr
  unfold detectMissteps at hr
  rcases List.mem_filterMap.mp hr with ⟨mi, hmi, hf⟩
  dsimp only at hf
  by_cases hrange : s < mi.2.minStageOpt.getD 1 ∨ s > mi.2.maxStageOpt.getD 5
  · rw [if_pos hrange] at hf
    cases hf
  · rw [if_neg hrange] at hf
    refine ⟨mi, hmi, ?_, by omega, by omega⟩
    by_cases hmt : mi.2.patterns.any (fun p => search p (lower m.data))
    · rw [if_pos hmt] at hf
      cases hf
      rfl
    · rw [if_neg hmt] at hf
      cases hf

/-- Witness for C7: the pushy_early_close record returned at stage 2 for
the concrete close-now message comes from a definition whose stage range
contains 2. -/
theorem c7_misstep_detector_witness :
    ∃ mi, mi ∈ CRITICAL_MISSTEPS ∧
      (MisstepRecord.mk "pushy_early_close" (-3)
          "I\x27m not ready to make a decision yet. I still have questions.").id = mi.1 ∧
      mi.2.minStageOpt.getD 1 ≤ (2 : Int) ∧ (2 : Int) ≤ mi.2.maxStageOpt.getD 5 :=
  (c7_misstep_detector "Let\x27s close this deal right now" 2).2.1
    (MisstepRecord.mk "pushy_early_close" (-3)
      "I\x27m not ready to make a decision yet. I still have questions.")
    (by decide)

/-- C9: for every current stage in 1..5 and non-empty message list, the
behavior set is non-empty exactly when the returned stage is
current_stage + 1, and in that case it is the singleton behavior label of
the pattern set of stage current_stage + 1. -/
theorem c9_behaviors_iff_advance (s : Int) (msgs : List String)
    (h1 : 1 ≤ s) (h2 : s ≤ 5) (h3 : msgs ≠ []) :
    ((analyzePulseStageQuick msgs s).2 ≠ [] ↔
      (analyzePulseStageQuick msgs s).1 = s + 1) ∧
    ((analyzePulseStageQuick msgs s).1 = s + 1 →
      ∃ info, stagePatterns (s + 1) = some info ∧
        (analyzePulseStageQuick msgs s).2 = [info.behavior]) := by
  rcases analyzeQuick_cases msgs s with h | ⟨hlt, info, hp, h⟩ | ⟨hge, h⟩
  · rw [h]
    constructor
    · simp only [ne_eq, not_true_eq_false, false_iff]
      omega
    · intro habs
      exact absurd habs (by omega)
  · rw [h]
    exact ⟨by simp, fun _ => ⟨info, hp, rfl⟩⟩
  · rw [h]
    constructor
    · simp only [ne_eq, not_true_eq_false, false_iff]
      omega
    · intro habs
      exact absurd habs (by omega)

/-- Witness for C9 at stage 1 with a concrete reflective message. -/
theorem c9_behaviors_iff_advance_witness :
    (((analyzePulseStageQuick ["sounds like you need help"] 1).2 ≠ [] ↔
      (analyzePulseStageQuick ["sounds like you need help"] 1).1 = 1 + 1) ∧
    ((analyzePulseStageQuick ["sounds like you need help"] 1).1 = 1 + 1 →
      ∃ info, stagePatterns (1 + 1) = some info ∧
        (analyzePulseStageQuick ["sounds like you need help"] 1).2 = [info.behavior])) :=
  c9_behaviors_iff_advance 1 ["sounds like you need help"]
    (by decide) (by decide) (by decide)

/-- C10: for every current stage in 1..4, when the Trust Accumulator is fed
the per-turn Stage Detector output and the Misstep Detector
records, the delta is 2 plus the sum of the misstep penalties when the
stage advanced (stage bonus + the single rewarded behavior label), and the
sum of the penalties alone otherwise. -/
theorem c10_trust_delta (s : Int) (msgs : List String) (m : String)
    (h1 : 1 ≤ s) (h2 : s ≤ 4) :
    calculateTrustChange s (analyzePulseStageQuick msgs s).1
        (analyzePulseStageQuick msgs s).2 (detectMissteps m s) =
      (if s < (analyzePulseStageQuick msgs s).1 then 2 else 0) +
        ((detectMissteps m s).map (fun r => r.penalty)).sum := by
  rcases analyzeQuick_cases msgs s with h | ⟨hlt, info, hp, h⟩ | ⟨hge, h⟩
  · rw [h]
    simp [calculateTrustChange]
  · rw [h]
    have hb : behaviorReward info.behavior = 1 := by
      interval_cases s <;> (norm_num [stagePatterns] at hp; subst hp; decide)
    simp only [calculateTrustChange, List.map_cons, List.map_nil, hb,
      List.sum_cons, List.sum_nil]
    rw [if_pos (by omega), if_pos (by omega)]
    ring
  · exact absurd h2 (by omega)

/-- Witness for C10 at stage 1 with concrete message inputs. -/
theorem c10_trust_delta_witness :
    calculateTrustChange 1 (analyzePulseStageQuick ["sounds like you need help"] 1).1
        (analyzePulseStageQuick ["sounds like you need help"] 1).2
        (detectMissteps "you should consider our best plan" 1) =
      (if (1 : Int) < (analyzePulseStageQuick ["sounds like you need help"] 1).1
       then 2 else 0) +
        ((detectMissteps "you should consider our best plan" 1).map
          (fun r => r.penalty)).sum :=
  c10_trust_delta 1 ["sounds like you need help"]
    "you should consider our best plan" (by decide) (by decide)

end PulseApp
